import Mathlib

/-!
Verification of the data-cleaning/derivation pipeline and the rule-based
feedback-sentiment classifier of the FSN dashboard repository.

The embedding models the Python code of `src/main.py` shallowly:

* strings are `String` / `List Char`, Python `str.lower` is a character-wise
  `Char.toLower`, Python's substring test `w in t` is `List.IsInfix` decided;
* Python `str.split()` (split on whitespace runs, dropping empty pieces) is
  `pySplit`; `" ".join` is `joinSpace`;
* a pandas cell that may hold `NaN` is an `Option ℚ`; `DataFrame.mean(axis=1)`
  (which skips missing values) is `rowMean`;
* `pandas.Series.value_counts` is `value_counts`: unique values in order of
  first occurrence, stably sorted by descending count;
* the dashboard's data load (`load_and_prepare_data`) takes an
  `Option (List RawRow)`: `none` stands for the `except` branch (the raw CSV
  could not be obtained), `some rows` for a successful read.

The cleaning steps that produced the pre-cleaned CSV (`compute_bmi`,
`parse_salary`) are not present in the repository's source files; they are
modelled from the specification's own words and are marked as such.
-/

/-- The three sentiment labels returned by `classify_sentiment`
(`src/main.py` lines 437, 439, 441). -/
inductive Sentiment
  | Positive
  | Negative
  | Neutral
deriving DecidableEq

/-- Character-wise lower-casing, the model of Python `str.lower()` on the
ASCII keywords and comments this classifier handles. -/
def pyLower (s : List Char) : List Char := s.map Char.toLower

/-- The model of Python's substring test `needle in hay`. -/
def pyIn (needle hay : List Char) : Bool := decide (needle <:+: hay)

/-- The positive keyword list of `classify_sentiment` (`src/main.py` line 433). -/
def positive_words : List (List Char) :=
  ["good", "nice", "easy", "helpful", "clear", "great"].map String.data

/-- The negative keyword list of `classify_sentiment` (`src/main.py` line 434). -/
def negative_words : List (List Char) :=
  ["bad", "difficult", "confusing", "slow", "not good"].map String.data

/-- The sentiment classifier of `src/main.py` lines 431-441: lower-case the
comment, return `Positive` if any positive keyword occurs as a substring,
else `Negative` if any negative keyword does, else `Neutral`. -/
def classify_sentiment (text : String) : Sentiment :=
  if positive_words.any (fun w => pyIn w (pyLower text.data)) then Sentiment.Positive
  else if negative_words.any (fun w => pyIn w (pyLower text.data)) then Sentiment.Negative
  else Sentiment.Neutral

/-- Line 443 of `src/main.py`: a missing comment is replaced by the empty
string (`fillna("")`) before classification. -/
def fillna_classify (comment : Option String) : Sentiment :=
  classify_sentiment (comment.getD "")

/-- Line 443 of `src/main.py`: the `Sentiment` column is the row-wise
application of the classifier to the (fillna-ed) `Feedback` column. -/
def sentiment_column (comments : List (Option String)) : List Sentiment :=
  comments.map fillna_classify

/-- Whitespace in the sense of Python `str.split()` with no argument. -/
def pyIsSpace (c : Char) : Bool :=
  c == ' ' || c == '\t' || c == '\n' || c == '\r' || c == '\x0b' || c == '\x0c'

/-- Python `str.split()`: split on whitespace runs, dropping empty pieces. -/
def pySplit (s : List Char) : List (List Char) :=
  (s.splitOnP pyIsSpace).filter (fun w => !w.isEmpty)

/-- Python `" ".join(comments)`. -/
def joinSpace : List String → List Char
  | [] => []
  | [c] => c.data
  | c :: cs => c.data ++ ' ' :: joinSpace cs

/-- Line 455 of `src/main.py`: all tokens of the joined, lower-cased corpus. -/
def all_words (comments : List String) : List (List Char) :=
  pySplit (pyLower (joinSpace comments))

/-- The stopword list of `src/main.py` line 456. -/
def stopwords : List (List Char) :=
  ["the", "and", "is", "to", "a", "of", "for", "it", "this"].map String.data

/-- Line 457 of `src/main.py`: keep the tokens that are not stopwords and are
strictly longer than 3 characters. -/
def words (comments : List String) : List (List Char) :=
  (all_words comments).filter
    (fun w => !(decide (w ∈ stopwords)) && decide (3 < w.length))

/-- The unique elements of a token list in order of first occurrence
(`seen` accumulates the values already emitted). -/
def firstSeen (seen : List (List Char)) : List (List Char) → List (List Char)
  | [] => []
  | w :: ws => if w ∈ seen then firstSeen seen ws else w :: firstSeen (w :: seen) ws

/-- Insert a `(token, count)` pair into a list sorted by descending count,
after every earlier pair of greater-or-equal count (so the sort is stable). -/
def insertByCount (x : List Char × Nat) :
    List (List Char × Nat) → List (List Char × Nat)
  | [] => [x]
  | y :: ys => if x.2 ≤ y.2 then y :: insertByCount x ys else x :: y :: ys

/-- Stable sort of `(token, count)` pairs by descending count. -/
def sortByCountDesc (l : List (List Char × Nat)) : List (List Char × Nat) :=
  l.foldl (fun acc x => insertByCount x acc) []

/-- The model of `pandas.Series.value_counts()` as used on line 460 of
`src/main.py`: each unique token with its number of occurrences, ordered by
descending count, ties in order of first occurrence. -/
def value_counts (ws : List (List Char)) : List (List Char × Nat) :=
  sortByCountDesc ((firstSeen [] ws).map (fun w => (w, ws.count w)))

/-- Lines 455-460 of `src/main.py`: the ten most frequent kept tokens of the
feedback corpus with their counts. -/
def word_freq (comments : List String) : List (List Char × Nat) :=
  (value_counts (words comments)).take 10

/-- The keyword-frequency operation as the specification words it
(`top_keywords(comments, stopwords, min_length, top_n)`): concatenate,
lower-case, split on whitespace, discard tokens in the stopword set or
shorter than `min_length`, count, return the `top_n` most frequent ordered
by descending count with ties in first-seen order. Stated separately from
`word_freq` so the two can be compared. -/
def top_keywords (comments : List String) (stop : List (List Char))
    (min_length top_n : Nat) : List (List Char × Nat) :=
  (value_counts ((pySplit (pyLower (joinSpace comments))).filter
    (fun w => !(decide (w ∈ stop)) && decide (min_length ≤ w.length)))).take top_n

/-- The model of pandas row-wise `mean(axis=1)` as used on lines 33 and 114 of
`src/main.py`: the mean of the present values, absent when none is present. -/
def rowMean (xs : List (Option ℚ)) : Option ℚ :=
  let present := xs.filterMap id
  if present.isEmpty then none else some (present.sum / (present.length : ℚ))

/-- Lines 33 and 114 of `src/main.py`: the derived
`Avg_Parental_Income` column, `df[["Gaji_Bapa", "Gaji_Ibu"]].mean(axis=1)`. -/
def Avg_Parental_Income (gaji_bapa gaji_ibu : Option ℚ) : Option ℚ :=
  rowMean [gaji_bapa, gaji_ibu]

/-- One raw record after `pd.to_numeric(..., errors="coerce")` on the key
columns (`src/main.py` lines 29-30): each numeric cell either holds a number
or is missing. -/
structure RawRow where
  berat_kg : Option ℚ
  tinggi_cm : Option ℚ
  umur_bulan : Option ℚ
  gaji_bapa : Option ℚ
  gaji_ibu : Option ℚ
  gaji_penjaga : Option ℚ
  bmi : Option ℚ
deriving DecidableEq

/-- One record of the prepared frame: the raw record plus the derived
`Avg_Parental_Income` column (`src/main.py` line 33). -/
structure PreparedRow where
  raw : RawRow
  avg_parental_income : Option ℚ
deriving DecidableEq

/-- The per-record preparation of `load_and_prepare_data`. -/
def prepare_row (r : RawRow) : PreparedRow :=
  ⟨r, Avg_Parental_Income r.gaji_bapa r.gaji_ibu⟩

/-- Lines 22-39 of `src/main.py`: on a successful read the rows are prepared;
in the `except` branch (the source cannot be obtained, modelled by `none`)
the function returns an empty frame (`pd.DataFrame()`). -/
def load_and_prepare_data (source : Option (List RawRow)) : List PreparedRow :=
  match source with
  | some rows => rows.map prepare_row
  | none => []

/-- Lines 44-45 of `src/main.py`: the caller halts (`st.stop()`) exactly when
the loaded frame is empty. -/
def stops_after_load (df : List PreparedRow) : Bool := df.isEmpty

/-- Modelled from the spec: `compute_bmi` is part of the cleaning that
produced the pre-cleaned CSV and is not among the repository's source files
(the dashboards only re-coerce the already-computed `BMI` column). Spec
section 4.1: round to 2 decimal places. -/
def round2 (x : ℚ) : ℚ := ((round (x * 100) : ℤ) : ℚ) / 100

/-- Modelled from the spec: `compute_bmi(weight_kg, height_cm)` of section
4.1, absent from `src/`. If both inputs are present and `height_cm > 0` it
returns `weight_kg / (height_cm/100)^2` rounded to 2 decimal places,
otherwise it is absent and the division is not attempted. -/
def compute_bmi (weight_kg height_cm : Option ℚ) : Option ℚ :=
  match weight_kg, height_cm with
  | some w, some h => if 0 < h then some (round2 (w / (h / 100) ^ 2)) else none
  | _, _ => none

/-- Delete every occurrence of the currency marker `RM`. -/
def stripRM : List Char → List Char
  | [] => []
  | 'R' :: 'M' :: rest => stripRM rest
  | c :: rest => c :: stripRM rest

/-- A non-empty all-digit token. -/
def isDigits (s : List Char) : Bool := !s.isEmpty && s.all Char.isDigit

/-- The numeric value of an all-digit token. -/
def digitsToNat (s : List Char) : Nat := s.foldl (fun n c => 10 * n + (c.toNat - 48)) 0

/-- Modelled from the spec: the plain-number parse inside `parse_salary`
(section 4.1, absent from `src/`): an integer or decimal-fraction literal. -/
def parseNum (s : List Char) : Option ℚ :=
  match s.splitOnP (fun c => c == '.') with
  | [ip] => if isDigits ip then some (digitsToNat ip : ℚ) else none
  | [ip, fp] =>
      if isDigits ip && isDigits fp then
        some ((digitsToNat ip : ℚ) + (digitsToNat fp : ℚ) / ((10 : ℚ) ^ fp.length))
      else none
  | _ => none

/-- Modelled from the spec: `parse_salary(text)` of section 4.1, absent from
`src/`. Strip the currency prefix and the thousands separators; with a single
`-` separator left, return the mean of the two numeric endpoints; a direct
numeric parse returns that number; anything else is absent, never an error. -/
def parse_salary (text : String) : Option ℚ :=
  let s := (stripRM text.data).filter (fun c => c != ',')
  match s.splitOnP (fun c => c == '-') with
  | [a, b] =>
      match parseNum a, parseNum b with
      | some x, some y => some ((x + y) / 2)
      | _, _ => none
  | _ => parseNum s

/-- A keyword match after lower-casing forces the positive branch of
`classify_sentiment` and the negative branch is not consulted. -/
theorem classify_of_pos_match (text : String)
    (h : positive_words.any (fun w => pyIn w (pyLower text.data)) = true) :
    classify_sentiment text = Sentiment.Positive := by
  simp [classify_sentiment, h]

/-- C1: a comment containing any positive keyword (after lower-casing) is
classified POSITIVE regardless of negative keywords, because the positive
check is evaluated first; in particular
`classify_sentiment "This is good but confusing" = Positive` and
`classify_sentiment "very bad experience" = Negative`. -/
theorem classify_sentiment_positive_first :
    (∀ text : String, (∃ w ∈ positive_words, w <:+: pyLower text.data) →
      classify_sentiment text = Sentiment.Positive) ∧
    classify_sentiment "This is good but confusing" = Sentiment.Positive ∧
    classify_sentiment "very bad experience" = Sentiment.Negative := by
  refine ⟨?_, by decide, by decide⟩
  rintro text ⟨w, hw, hinf⟩
  exact classify_of_pos_match text
    (List.any_eq_true.mpr ⟨w, hw, by simpa [pyIn] using hinf⟩)

/-- C7: an empty comment and an absent comment (filled to `""` by
`fillna("")`) are both classified NEUTRAL. -/
theorem empty_or_absent_comment_neutral :
    fillna_classify none = Sentiment.Neutral ∧
    classify_sentiment "" = Sentiment.Neutral :=
  ⟨by decide, by decide⟩

/-- C9: any comment containing the substring `not good` is classified
POSITIVE, because keyword matching is substring containment, `good` is a
substring of `not good`, and the positive check fires first; the negative
keyword `not good` can never decide a classification. -/
theorem not_good_is_positive (text : String)
    (h : "not good".data <:+: text.data) :
    classify_sentiment text = Sentiment.Positive := by
  have hgood : "good".data <:+: text.data :=
    List.IsInfix.trans (by decide) h
  have hlow := List.IsInfix.map Char.toLower hgood
  have hfix : List.map Char.toLower "good".data = "good".data := by decide
  rw [hfix] at hlow
  exact classify_of_pos_match text
    (List.any_eq_true.mpr ⟨"good".data, by decide, by simpa [pyIn, pyLower] using hlow⟩)

/-- Witness for C9 at the concrete comment `this was not good at all`. -/
theorem not_good_is_positive_witness :
    classify_sentiment "this was not good at all" = Sentiment.Positive :=
  not_good_is_positive "this was not good at all" (by decide)

/-- Computation of the row mean when both cells are present. -/
theorem rowMean_both (a b : ℚ) : rowMean [some a, some b] = some ((a + b) / 2) := by
  show some (List.sum [a, b] / ((List.length [a, b] : ℕ) : ℚ)) = some ((a + b) / 2)
  norm_num

/-- Computation of the row mean when only the first cell is present. -/
theorem rowMean_left (a : ℚ) : rowMean [some a, none] = some a := by
  show some (List.sum [a] / ((List.length [a] : ℕ) : ℚ)) = some a
  norm_num

/-- Computation of the row mean when only the second cell is present. -/
theorem rowMean_right (a : ℚ) : rowMean [none, some a] = some a := by
  show some (List.sum [a] / ((List.length [a] : ℕ) : ℚ)) = some a
  norm_num

/-- C4: the derived average parental income is the mean of both salaries when
both are present, the single present value alone when exactly one is present
(never averaged with a missing value treated as zero), and absent only when
both are absent; in particular on the spec's examples. -/
theorem avg_parental_income_cases :
    (∀ a b : ℚ, Avg_Parental_Income (some a) (some b) = some ((a + b) / 2)) ∧
    (∀ a : ℚ, Avg_Parental_Income (some a) none = some a) ∧
    (∀ a : ℚ, Avg_Parental_Income none (some a) = some a) ∧
    Avg_Parental_Income none none = none ∧
    Avg_Parental_Income (some 2000) none = some 2000 := by
  refine ⟨?_, ?_, ?_, rfl, ?_⟩
  · intro a b
    exact rowMean_both a b
  · intro a
    exact rowMean_left a
  · intro a
    exact rowMean_right a
  · exact rowMean_left 2000

/-- Counterexample for C5: the value `load_and_prepare_data` returns when the
source is unavailable is the very value it returns for a successfully loaded
empty source, so the failure signal is not distinguishable by the caller from
a valid empty cleaned collection. -/
theorem load_failure_equals_valid_empty :
    load_and_prepare_data none = load_and_prepare_data (some []) := rfl

/-- C5 (amended): a source-unavailable failure yields an empty frame with no
partial result and the caller halts on it; but the caller's only signal is
emptiness, which a valid empty cleaned collection triggers identically, so
the two conditions are not distinguished. -/
theorem load_failure_halts_like_empty :
    load_and_prepare_data none = [] ∧
    stops_after_load (load_and_prepare_data none) = true ∧
    (∀ rows : List RawRow,
      stops_after_load (load_and_prepare_data (some rows)) = true ↔ rows = []) := by
  refine ⟨rfl, rfl, ?_⟩
  intro rows
  simp [stops_after_load, load_and_prepare_data]

/-- C6: the word-frequency operation on the spec's example, and the source's
fixed-parameter computation (`src/main.py` lines 455-460) agrees with the
spec's parametrized `top_keywords` at its stopword list, minimum length 4
(the source keeps tokens of length strictly greater than 3) and top 10. -/
theorem top_keywords_spec :
    top_keywords ["great app great"] ["the".data] 3 1 = [("great".data, 2)] ∧
    (∀ comments : List String,
      word_freq comments = top_keywords comments stopwords 4 10) := by
  refine ⟨by decide, ?_⟩
  intro comments
  rfl

/-- C8: the core operations are deterministic: identical inputs produce
identical outputs, and the sentiment column is computed row-wise with no
state shared between invocations (each row's label depends only on that
row's comment). -/
theorem core_operations_deterministic :
    (∀ x y : String, x = y → classify_sentiment x = classify_sentiment y) ∧
    (∀ s t : Option (List RawRow), s = t →
      load_and_prepare_data s = load_and_prepare_data t) ∧
    (∀ cs ds : List String, cs = ds → word_freq cs = word_freq ds) ∧
    (∀ (pre post : List (Option String)) (c : Option String),
      sentiment_column (pre ++ c :: post)
        = sentiment_column pre ++ fillna_classify c :: sentiment_column post) := by
  refine ⟨?_, ?_, ?_, ?_⟩
  · intro x y h
    rw [h]
  · intro s t h
    rw [h]
  · intro cs ds h
    rw [h]
  · intro pre post c
    simp [sentiment_column]

/-- Rounding to two decimal places preserves non-negativity. -/
theorem round2_nonneg (x : ℚ) (hx : 0 ≤ x) : 0 ≤ round2 x := by
  unfold round2
  have h1 : (0 : ℚ) ≤ x * 100 + 1 / 2 := by linarith
  have h2 : 0 ≤ round (x * 100) := by
    rw [round_eq]
    exact Int.floor_nonneg.mpr h1
  have h3 : (0 : ℚ) ≤ ((round (x * 100) : ℤ) : ℚ) := by exact_mod_cast h2
  exact div_nonneg h3 (by norm_num)

/-- Counterexample for C2: at weight 0 kg and height 100 cm the derived `bmi`
is present and equal to zero, so `bmi` is not "never zero or negative". -/
theorem compute_bmi_zero_weight :
    compute_bmi (some 0) (some 100) = some 0 := by
  have hz : round2 ((0 : ℚ) / ((100 : ℚ) / 100) ^ 2) = 0 := by
    norm_num [round2]
  simp only [compute_bmi]
  rw [if_pos (by norm_num : (0 : ℚ) < 100), hz]

/-- C2 (amended): `bmi` is present iff both `weight_kg` and `height_cm` are
present and `height_cm > 0`; when present it is
`weight_kg / (height_cm/100)^2` rounded to 2 decimal places, and it is never
negative provided `weight_kg ≥ 0` (it can be zero, e.g. at zero weight);
when `height_cm ≤ 0` or either input is absent it is ABSENT and the division
is not attempted. -/
theorem compute_bmi_spec (wo ho : Option ℚ) :
    ((compute_bmi wo ho).isSome ↔
      ∃ wv hv : ℚ, wo = some wv ∧ ho = some hv ∧ 0 < hv) ∧
    (∀ wv hv : ℚ, wo = some wv → ho = some hv → 0 < hv →
      compute_bmi wo ho = some (round2 (wv / (hv / 100) ^ 2))) ∧
    (∀ wv b : ℚ, wo = some wv → 0 ≤ wv → compute_bmi wo ho = some b → 0 ≤ b) := by
  refine ⟨?_, ?_, ?_⟩
  · cases wo with
    | none => simp [compute_bmi]
    | some a =>
      cases ho with
      | none => simp [compute_bmi]
      | some bb =>
        by_cases hb : 0 < bb
        · simp only [compute_bmi, if_pos hb, Option.isSome_some]
          exact iff_of_true trivial ⟨a, bb, rfl, rfl, hb⟩
        · simp only [compute_bmi, if_neg hb, Option.isSome_none]
          refine iff_of_false (by simp) ?_
          rintro ⟨wv, hv, hw, hh, hpos⟩
          obtain rfl : bb = hv := Option.some.inj hh
          exact hb hpos
  · intro wv hv hw hh hpos
    subst hw
    subst hh
    simp only [compute_bmi, if_pos hpos]
  · intro wv b hw hwnn heq
    subst hw
    cases ho with
    | none => simp [compute_bmi] at heq
    | some bb =>
      by_cases hb : 0 < bb
      · simp only [compute_bmi, if_pos hb, Option.some_inj] at heq
        subst heq
        exact round2_nonneg _ (div_nonneg hwnn (by positivity))
      · simp only [compute_bmi, if_neg hb] at heq
        exact Option.noConfusion heq

/-- C3: `parse_salary` on the specification's three examples: a currency
range averages to its midpoint, a plain prefixed number parses directly, and
unparseable text yields ABSENT rather than an error. -/
theorem parse_salary_examples :
    parse_salary "RM1,000-RM1,999" = some (2999 / 2) ∧
    parse_salary "RM2500" = some 2500 ∧
    parse_salary "Error" = none := by
  refine ⟨?_, ?_, by decide⟩
  · show some (((digitsToNat "1000".data : ℚ) + (digitsToNat "1999".data : ℚ)) / 2)
      = some (2999 / 2)
    norm_num [show digitsToNat "1000".data = 1000 from by decide,
      show digitsToNat "1999".data = 1999 from by decide]
  · show some ((digitsToNat "2500".data : ℚ)) = some 2500
    norm_num [show digitsToNat "2500".data = 2500 from by decide]

/-- Membership after insertion into the count-sorted list. -/
theorem mem_insertByCount {x y : List Char × Nat} {l : List (List Char × Nat)}
    (h : x ∈ insertByCount y l) : x = y ∨ x ∈ l := by
  induction l with
  | nil => simpa [insertByCount] using h
  | cons z zs ih =>
    rw [insertByCount] at h
    split_ifs at h
    · rcases List.mem_cons.mp h with hz | htail
      · exact Or.inr (hz ▸ List.mem_cons_self z zs)
      · rcases ih htail with hy | hzs
        · exact Or.inl hy
        · exact Or.inr (List.mem_cons_of_mem z hzs)
    · rcases List.mem_cons.mp h with hy | htail
      · exact Or.inl hy
      · exact Or.inr htail

/-- The stable descending sort permutes its input, so membership is preserved. -/
theorem mem_sortByCountDesc {x : List Char × Nat} {l : List (List Char × Nat)}
    (h : x ∈ sortByCountDesc l) : x ∈ l := by
  have key : ∀ (m acc : List (List Char × Nat)),
      x ∈ m.foldl (fun a b => insertByCount b a) acc → x ∈ acc ∨ x ∈ m := by
    intro m
    induction m with
    | nil => exact fun acc hx => Or.inl hx
    | cons z zs ih =>
      intro acc hx
      simp only [List.foldl_cons] at hx
      rcases ih _ hx with hacc | hzs
      · rcases mem_insertByCount hacc with hz | ha
        · exact Or.inr (hz ▸ List.mem_cons_self z zs)
        · exact Or.inl ha
      · exact Or.inr (List.mem_cons_of_mem z hzs)
  rcases key l [] h with h0 | h1
  · cases h0
  · exact h1

/-- Every token emitted by `firstSeen` occurs in the input list. -/
theorem mem_firstSeen {x : List Char} :
    ∀ (seen l : List (List Char)), x ∈ firstSeen seen l → x ∈ l := by
  intro seen l
  induction l generalizing seen with
  | nil => intro h; simp [firstSeen] at h
  | cons w ws ih =>
    intro h
    rw [firstSeen] at h
    split_ifs at h
    · exact List.mem_cons_of_mem w (ih _ h)
    · rcases List.mem_cons.mp h with hw | hx
      · exact hw ▸ List.mem_cons_self w ws
      · exact List.mem_cons_of_mem w (ih _ hx)

/-- C10: the keyword-frequency counter only counts tokens strictly longer
than 3 characters, so no token of length 3 or less (stopword or not) ever
appears in the reported frequency table. -/
theorem short_tokens_never_counted (comments : List String) (w : List Char)
    (c : Nat) (hlen : w.length ≤ 3) : (w, c) ∉ word_freq comments := by
  intro hmem
  have h1 : (w, c) ∈ value_counts (words comments) :=
    List.take_subset 10 _ hmem
  rw [value_counts] at h1
  have h2 := mem_sortByCountDesc h1
  rcases List.mem_map.mp h2 with ⟨v, hv, hveq⟩
  have hv1 : v = w := congrArg Prod.fst hveq
  have h3 : w ∈ words comments := hv1 ▸ mem_firstSeen _ _ hv
  have h4 := (List.mem_filter.mp h3).2
  rw [Bool.and_eq_true, decide_eq_true_eq] at h4
  omega

/-- Witness for C10: the three-letter token `app` is never reported, with any
count, for the corpus of the spec's own example. -/
theorem short_tokens_never_counted_witness :
    ("app".data, 1) ∉ word_freq ["great app great"] :=
  short_tokens_never_counted ["great app great"] "app".data 1 (by decide)
